import Mathlib

/-!
Shallow embedding of the wingersoft/temperature firmware (src/main.cpp):
a supervisor loop that maintains a WiFi link and an MQTT session, samples a
DS18B20 temperature sensor on a fixed 10000 ms schedule, and publishes
readings on an MQTT topic.  External collaborators (WiFi stack, MQTT client,
sensor, serial console) are modelled as oracle inputs in `Env`; observable
actions are recorded as `Event`s.  Machine `unsigned long` arithmetic is
modelled as `Nat` reduced modulo 2^32.
-/

namespace Temperature

/-- `SAMPLE_INTERVAL` from main.cpp: 10 s in milliseconds. -/
def SAMPLE_INTERVAL : Nat := 10000

/-- `MQTT_RECONNECT_INTERVAL` from main.cpp: 5000 ms. -/
def MQTT_RECONNECT_INTERVAL : Nat := 5000

/-- `MQTT_TOPIC_STATUS` from main.cpp. -/
def MQTT_TOPIC_STATUS : String := "esp32/status"

/-- `MQTT_TOPIC_TEMPERATURE` from main.cpp. -/
def MQTT_TOPIC_TEMPERATURE : String := "sensor3/temp"

/-- The DallasTemperature `DEVICE_DISCONNECTED_C` sentinel returned by
`getTempCByIndex` when the sensor read fails. -/
def DEVICE_DISCONNECTED_C : ℚ := -127

/-- Modulus of the 32-bit `unsigned long` used by `millis()` arithmetic. -/
def U32 : Nat := 4294967296

/-- Reduce a mathematical instant to its 32-bit machine representation. -/
def u32 (n : Nat) : Nat := n % U32

/-- Unsigned 32-bit wraparound subtraction `a - b`, as C computes
`currentTime - lastX` on `unsigned long`. -/
def wsub (a b : Nat) : Nat := (u32 a + (U32 - u32 b)) % U32

/-- The sampling-timer check in `loop`:
`currentTime - lastSampleTime >= SAMPLE_INTERVAL`. -/
def sampleDue (now last : Nat) : Bool := decide (SAMPLE_INTERVAL ≤ wsub now last)

/-- The reconnect-timer check in `handleMQTTConnection`:
`currentTime - lastReconnectAttempt > MQTT_RECONNECT_INTERVAL`. -/
def reconnectDue (now last : Nat) : Bool :=
  decide (MQTT_RECONNECT_INTERVAL < wsub now last)

/-- Observable actions of the firmware: MQTT publishes, the incoming-message
pump (`mqttClient.loop()`), serial diagnostics, an MQTT connect attempt
(`mqttClient.connect`), and the `ESP.restart()` reset. -/
inductive Event where
  | publish (topic payload : String)
  | pump
  | serialLog (msg : String)
  | mqttAttempt
  | restart
  deriving DecidableEq, Repr

/-- The mutable globals of main.cpp that the connectivity logic reads and
writes: `wifiConnected`, `mqttConnected`, `lastReconnectAttempt`,
`lastSampleTime`. -/
structure MState where
  wifiConnected : Bool
  mqttConnected : Bool
  lastReconnectAttempt : Nat
  lastSampleTime : Nat
  deriving DecidableEq, Repr

/-- Initial values of the globals at boot. -/
def initState : MState :=
  { wifiConnected := false, mqttConnected := false
    lastReconnectAttempt := 0, lastSampleTime := 0 }

/-- Oracle inputs for one loop iteration: the two `millis()` readings
(`now` in `loop`, `connNow` in `handleMQTTConnection`), the WiFi status at
the start of the tick, the WiFi status stream observed inside
`connectToWiFi`'s wait loop, the outcome of `mqttClient.connect`, the value
of `mqttClient.connected()`, and the sensor reading. -/
structure Env where
  now : Nat
  connNow : Nat
  wifiStatus : Bool
  wifiRetryStatus : Nat → Bool
  mqttConnectOk : Bool
  clientConnected : Bool
  temp : ℚ

/-- Outcome of `connectToWiFi`: either the `ESP.restart()` reset fires, or
the function returns the boolean `b` having last polled the status at
index `k` (the only `return` in the source is `return true`). -/
inductive WifiResult where
  | restart
  | ret (b : Bool) (k : Nat)
  deriving DecidableEq, Repr

/-- The wait loop of `connectToWiFi`: poll `WiFi.status()`; while not
connected, decrement `trying` (initially 10), restarting when it hits 0.
Returns the outcome together with the number of status polls performed. -/
def wifiWait (status : Nat → Bool) : Nat → Nat → WifiResult × Nat
  | trying, i =>
    if status i then (WifiResult.ret true i, 1)
    else
      match trying with
      | 0 => (WifiResult.restart, 1)
      | t + 1 =>
        let r := wifiWait status t (i + 1)
        (r.1, r.2 + 1)

/-- `connectToWiFi` from main.cpp: begin association, then wait with a retry
budget of 10 (eleven status polls in all) before `ESP.restart()`. -/
def connectToWiFi (status : Nat → Bool) : WifiResult × Nat :=
  wifiWait status 10 0

/-- `mqttCallback` from main.cpp: the registered incoming-message observer.
It assembles the payload bytes into a string and logs topic and payload;
it performs no publish and mutates no state. -/
def mqttCallback (topic : String) (payload : List Char) : List Event :=
  [Event.serialLog ("MQTT Message received [" ++ topic ++ "]: "
    ++ String.mk payload)]

/-- `connectToMQTT` from main.cpp: attempt `mqttClient.connect`; on success
publish the literal "online" on the status topic and set
`mqttConnected := true`; on failure set `mqttConnected := false`.
Returns (new state, returned bool, events). -/
def connectToMQTT (ok : Bool) (s : MState) : MState × Bool × List Event :=
  if ok then
    ({ s with mqttConnected := true }, true,
      [Event.mqttAttempt, Event.publish MQTT_TOPIC_STATUS "online"])
  else
    ({ s with mqttConnected := false }, false, [Event.mqttAttempt])

/-- Left-pad a string with spaces to a minimum width, as `dtostrf`
right-justifies its output. -/
def leftPad (w : Nat) (s : String) : String :=
  String.mk (List.replicate (w - s.length) ' ') ++ s

/-- Little-endian base-10 digits with explicit fuel (so that concrete
instances reduce in the kernel). -/
def natDigitsAux : Nat → Nat → List Nat
  | 0, _ => []
  | fuel + 1, n => if n = 0 then [] else n % 10 :: natDigitsAux fuel (n / 10)

/-- Little-endian base-10 digits of a natural number. -/
def natDigits (n : Nat) : List Nat := natDigitsAux n n

/-- Decimal digit characters of a natural number, most significant first. -/
def natDecChars (n : Nat) : List Char :=
  ((natDigits n).reverse).map (fun d => Char.ofNat (48 + d))

/-- Standard decimal rendering of a natural number. -/
def natDec (n : Nat) : String :=
  if n = 0 then "0" else String.mk (natDecChars n)

/-- Round `10 * x` to the nearest integer (halves up), computed directly on
the numerator and denominator so that concrete instances reduce in the
kernel; equal to `round (x * 10)` (see `round10_eq`). -/
def round10 (x : ℚ) : ℤ :=
  Rat.floor (Rat.divInt (20 * x.num + (x.den : ℤ)) (2 * (x.den : ℤ)))

/-- Render a rational to one decimal place (round to nearest tenth), the
numeric core of `dtostrf(x, _, 1, buf)`. -/
def formatFixed1 (x : ℚ) : String :=
  let n : ℤ := round10 x
  let m : Nat := n.natAbs
  (if n < 0 then "-" else "") ++ natDec (m / 10) ++ "." ++ natDec (m % 10)

/-- Model of the Arduino `dtostrf(x, width, 1, buf)` library call used by
`publishTemperatureData`: one fractional digit, right-justified with spaces
to the minimum field width. -/
def dtostrf1 (x : ℚ) (width : Nat) : String := leftPad width (formatFixed1 x)

/-- `publishTemperatureData` from main.cpp: format the reading with
`dtostrf(currentTemp, 6, 1, payload)` and publish it on the temperature
topic (plus a serial log). -/
def publishTemperatureData (currentTemp : ℚ) : List Event :=
  [Event.publish MQTT_TOPIC_TEMPERATURE (dtostrf1 currentTemp 6),
   Event.serialLog ("Published to MQTT: " ++ dtostrf1 currentTemp 6 ++ " C")]

/-- `handleMQTTConnection` from main.cpp.  If WiFi is down: clear both
connected flags, block in `connectToWiFi` (which either restarts the chip or
returns true), and on return attempt `connectToMQTT`, then return.  Else if
the MQTT client is not connected: clear `mqttConnected` and, when the
rate-limit timer has expired, record the attempt time and call
`connectToMQTT`.  Else pump incoming messages with `mqttClient.loop()`.
`none` means `ESP.restart()` fired (the process does not continue). -/
def handleMQTTConnection (env : Env) (s : MState) : Option MState × List Event :=
  let currentTime := u32 env.connNow
  if env.wifiStatus = false then
    let s1 : MState := { s with wifiConnected := false, mqttConnected := false }
    match (connectToWiFi env.wifiRetryStatus).1 with
    | WifiResult.restart => (none, [Event.serialLog "WiFi disconnected!", Event.restart])
    | WifiResult.ret _ _ =>
      let r := connectToMQTT env.mqttConnectOk s1
      (some r.1, Event.serialLog "WiFi disconnected!" :: r.2.2)
  else if env.clientConnected = false then
    let s1 : MState := { s with mqttConnected := false }
    if reconnectDue currentTime s1.lastReconnectAttempt then
      let s2 : MState := { s1 with lastReconnectAttempt := currentTime }
      let r := connectToMQTT env.mqttConnectOk s2
      (some r.1, r.2.2)
    else (some s1, [])
  else
    (some s, [Event.pump])

/-- The sampling scheduler inlined in `loop`: fire when
`currentTime - lastSampleTime >= SAMPLE_INTERVAL`, and on firing set
`lastSampleTime = currentTime` (not `+= interval`).  Returns the optional
sample instant and the updated `lastSampleTime`. -/
def pollSample (now last : Nat) : Option Nat × Nat :=
  if sampleDue now last then (some now, now) else (none, last)

/-- One iteration of `loop` from main.cpp: read `millis()`, run
`handleMQTTConnection`, then if the sampling timer fired, read the sensor
and, when `mqttConnected` is set, publish the reading.  `none` means the
tick ended in `ESP.restart()`. -/
def loopIter (env : Env) (s : MState) : Option MState × List Event :=
  let currentTime := u32 env.now
  match handleMQTTConnection env s with
  | (none, ev) => (none, ev)
  | (some s1, ev) =>
    match pollSample currentTime s1.lastSampleTime with
    | (none, _) => (some s1, ev)
    | (some _, newLast) =>
      let s2 : MState := { s1 with lastSampleTime := newLast }
      let sensorEv := [Event.serialLog "Current temperature"]
      let pubEv := if s2.mqttConnected then publishTemperatureData env.temp else []
      (some s2, ev ++ sensorEv ++ pubEv)

/-- Run `handleMQTTConnection` over a sequence of ticks, recording each
tick's `millis()` reading and events; stops if the chip restarts. -/
def runConn : MState → List Env → List (Nat × List Event)
  | _, [] => []
  | s, e :: es =>
    match handleMQTTConnection e s with
    | (none, ev) => [(u32 e.connNow, ev)]
    | (some s1, ev) => (u32 e.connNow, ev) :: runConn s1 es

/-- Instants (machine clock readings) of the ticks in a trace that attempted
an MQTT connect. -/
def attemptTimes (tr : List (Nat × List Event)) : List Nat :=
  (tr.filter (fun p => decide (Event.mqttAttempt ∈ p.2))).map (fun p => p.1)

/-- Requests produced by the sampling scheduler over a sequence of poll
instants, starting from a given `lastSampleTime` (Scenario C harness). -/
def schedulerScenario (times : List Nat) (last0 : Nat) : List Nat :=
  (times.foldl
    (fun p t =>
      match pollSample t p.2 with
      | (some r, l) => (p.1 ++ [r], l)
      | (none, l) => (p.1, l))
    (([] : List Nat), last0)).1

/-- Model of `setup`'s network section: `connectToWiFi`, then on `true`
connect to MQTT, else the "MQTT will be disabled" branch.  The boolean
records whether the disabled branch was taken. -/
def setupConn (status : Nat → Bool) (mqttOk : Bool) : Option (Bool × List Event) :=
  match (connectToWiFi status).1 with
  | WifiResult.restart => none
  | WifiResult.ret b _ =>
    if b then
      let r := connectToMQTT mqttOk initState
      some (false, r.2.2)
    else
      some (true, [Event.serialLog "WiFi connection failed. MQTT will be disabled."])

/-- Tick input: a healthy link and session, with the sensor read failing
(the `DEVICE_DISCONNECTED_C` sentinel) and the sampling timer expired. -/
def envSensorFail : Env :=
  { now := 20000, connNow := 20000, wifiStatus := true
    wifiRetryStatus := fun _ => true, mqttConnectOk := true
    clientConnected := true, temp := DEVICE_DISCONNECTED_C }

/-- State with the session up and a sample due. -/
def stUp : MState :=
  { wifiConnected := true, mqttConnected := true
    lastReconnectAttempt := 0, lastSampleTime := 0 }

/-- Tick input: link down mid-session, WiFi reconnect succeeding at once and
the MQTT handshake succeeding. -/
def envLinkFlap : Env :=
  { now := 6000, connNow := 6000, wifiStatus := false
    wifiRetryStatus := fun _ => true, mqttConnectOk := true
    clientConnected := false, temp := 0 }

/-- Tick input at t = 6000 with the link down and the MQTT handshake
failing (WiFi reconnect succeeds at once). -/
def envWifiDrop : Env :=
  { now := 6000, connNow := 6000, wifiStatus := false
    wifiRetryStatus := fun _ => true, mqttConnectOk := false
    clientConnected := false, temp := 0 }

/-- Tick input at t = 6010 with the link up, the session down, and the
MQTT handshake failing. -/
def envMqttRetry : Env :=
  { now := 6010, connNow := 6010, wifiStatus := true
    wifiRetryStatus := fun _ => true, mqttConnectOk := false
    clientConnected := false, temp := 0 }

/-- Tick input: link up, session down, reconnect timer expired, handshake
succeeding. -/
def envHandshake : Env :=
  { now := 9000, connNow := 9000, wifiStatus := true
    wifiRetryStatus := fun _ => true, mqttConnectOk := true
    clientConnected := false, temp := 21 }

/-- Tick input: link up, session connected (pump branch). -/
def envPump : Env :=
  { now := 100, connNow := 100, wifiStatus := true
    wifiRetryStatus := fun _ => true, mqttConnectOk := true
    clientConnected := true, temp := 21 }

/-- Drop leading spaces, as numeric parsers skip `dtostrf` padding. -/
def skipSpaces : List Char → List Char
  | ' ' :: cs => skipSpaces cs
  | cs => cs

/-- Consume leading decimal digits, returning the value read so far and the
rest of the input. -/
def digitsVal : List Char → Nat → Nat × List Char
  | [], acc => (acc, [])
  | c :: cs, acc =>
    if c.isDigit then digitsVal cs (acc * 10 + (c.toNat - 48))
    else (acc, c :: cs)

/-- Consume an optional leading minus sign. -/
def parseSign : List Char → Bool × List Char
  | '-' :: cs => (true, cs)
  | cs => (false, cs)

/-- Parse an optional fractional part introduced by a decimal point. -/
def parseFrac : List Char → ℚ
  | '.' :: cs =>
    let fp := digitsVal cs 0
    (fp.1 : ℚ) / 10 ^ (cs.length - fp.2.length)
  | _ => 0

/-- Re-parse a fixed-point decimal string (optionally space-padded and
signed) back to a rational, the reader's side of the round-trip. -/
def parseFixed (str : String) : ℚ :=
  let cs := skipSpaces str.data
  let sgn := parseSign cs
  let ip := digitsVal sgn.2 0
  let v : ℚ := (ip.1 : ℚ) + parseFrac ip.2
  if sgn.1 then -v else v

/-- A character list that does not begin with a decimal digit (so a digit
scan stops at its head). -/
def headNonDigit : List Char → Prop
  | [] => True
  | c :: _ => c.isDigit = false

/-! Helper lemmas. -/

theorem natDigitsAux_eq (fuel : Nat) :
    ∀ n, n ≤ fuel → natDigitsAux fuel n = Nat.digits 10 n := by
  induction fuel with
  | zero =>
    intro n hn
    interval_cases n
    simp [natDigitsAux]
  | succ fuel ih =>
    intro n hn
    by_cases h0 : n = 0
    · subst h0
      simp [natDigitsAux]
    · rw [natDigitsAux, if_neg h0,
        Nat.digits_def' (by norm_num : (1:Nat) < 10) (Nat.pos_of_ne_zero h0),
        ih (n / 10) (by omega)]

theorem natDigits_eq (n : Nat) : natDigits n = Nat.digits 10 n :=
  natDigitsAux_eq n n le_rfl

theorem digitChar_facts (d : Nat) (hd : d < 10) :
    (Char.ofNat (48 + d)).isDigit = true ∧ (Char.ofNat (48 + d)).toNat = 48 + d := by
  interval_cases d <;> exact ⟨rfl, rfl⟩

theorem digitsVal_stop (rest : List Char) (h : headNonDigit rest) (acc : Nat) :
    digitsVal rest acc = (acc, rest) := by
  cases rest with
  | nil => rfl
  | cons c cs =>
    simp only [headNonDigit] at h
    simp [digitsVal, h]

theorem digitsVal_append (l : List Nat) (hl : ∀ d ∈ l, d < 10) (rest : List Char)
    (h : headNonDigit rest) (acc : Nat) :
    digitsVal (l.map (fun d => Char.ofNat (48 + d)) ++ rest) acc =
      (l.foldl (fun a d => a * 10 + d) acc, rest) := by
  induction l generalizing acc with
  | nil => simpa using digitsVal_stop rest h acc
  | cons d l ih =>
    have hd := hl d (List.mem_cons_self d l)
    obtain ⟨hdig, htn⟩ := digitChar_facts d hd
    simp only [List.map_cons, List.cons_append, digitsVal, hdig, if_true, htn]
    have h48 : 48 + d - 48 = d := by omega
    rw [h48]
    exact ih (fun x hx => hl x (List.mem_cons_of_mem d hx)) (acc * 10 + d)

theorem foldr_digits (n : Nat) :
    (Nat.digits 10 n).foldr (fun d a => a * 10 + d) 0 = n := by
  induction n using Nat.strong_induction_on with
  | _ n ih =>
    rcases Nat.eq_zero_or_pos n with h | h
    · subst h
      simp
    · rw [Nat.digits_def' (by norm_num : (1:Nat) < 10) h]
      simp only [List.foldr_cons]
      rw [ih (n / 10) (Nat.div_lt_self h (by norm_num))]
      omega

theorem digitsVal_natDec (n : Nat) (rest : List Char) (h : headNonDigit rest) :
    digitsVal ((natDec n).data ++ rest) 0 = (n, rest) := by
  by_cases hn : n = 0
  · subst hn
    show digitsVal ('0' :: rest) 0 = (0, rest)
    simp [digitsVal]
    exact digitsVal_stop rest h 0
  · rw [natDec, if_neg hn]
    show digitsVal (natDecChars n ++ rest) 0 = (n, rest)
    rw [natDecChars, natDigits_eq,
      digitsVal_append _
        (fun d hd => Nat.digits_lt_base (by norm_num) (List.mem_reverse.mp hd))
        rest h 0]
    rw [List.foldl_reverse, foldr_digits]

theorem skipSpaces_replicate (k : Nat) (cs : List Char) :
    skipSpaces (List.replicate k ' ' ++ cs) = skipSpaces cs := by
  induction k with
  | zero => simp
  | succ k ih =>
    rw [List.replicate_succ, List.cons_append]
    show skipSpaces (List.replicate k ' ' ++ cs) = skipSpaces cs
    exact ih

theorem skipSpaces_nonspace (c : Char) (cs : List Char) (h : c ≠ ' ') :
    skipSpaces (c :: cs) = c :: cs := by
  rw [skipSpaces.eq_def]
  split
  · next heq =>
    injection heq with h1 h2
    exact absurd h1 h
  · rfl

theorem parseSign_cons_ne (c : Char) (cs : List Char) (h : c ≠ '-') :
    parseSign (c :: cs) = (false, c :: cs) := by
  rw [parseSign.eq_def]
  split
  · next heq =>
    injection heq with h1 h2
    exact absurd h1 h
  · rfl

theorem isDigit_ne_space_minus (c : Char) (h : c.isDigit = true) :
    c ≠ ' ' ∧ c ≠ '-' := by
  refine ⟨?_, ?_⟩ <;> rintro rfl <;> exact absurd h (by decide)

theorem natDec_head (n : Nat) :
    ∃ c cs, (natDec n).data = c :: cs ∧ c.isDigit = true := by
  by_cases hn : n = 0
  · subst hn
    exact ⟨'0', [], rfl, rfl⟩
  · rw [natDec, if_neg hn]
    have hne : Nat.digits 10 n ≠ [] := by
      simp [Nat.digits_ne_nil_iff_ne_zero, hn]
    cases hrev : (Nat.digits 10 n).reverse with
    | nil => exact absurd (List.reverse_eq_nil_iff.mp hrev) hne
    | cons d L =>
      have hmem : d ∈ Nat.digits 10 n := by
        rw [← List.mem_reverse, hrev]
        exact List.mem_cons_self d L
      have hd : d < 10 := Nat.digits_lt_base (by norm_num) hmem
      refine ⟨Char.ofNat (48 + d), L.map (fun d => Char.ofNat (48 + d)), ?_,
        (digitChar_facts d hd).1⟩
      show natDecChars n = _
      rw [natDecChars, natDigits_eq, hrev]
      rfl

theorem natDec_single (r : Nat) (h : r < 10) :
    digitsVal (natDec r).data 0 = (r, []) ∧ (natDec r).data.length = 1 := by
  constructor
  · have := digitsVal_natDec r [] trivial
    simpa using this
  · by_cases hr : r = 0
    · subst hr
      rfl
    · rw [natDec, if_neg hr]
      show (natDecChars r).length = 1
      rw [natDecChars, natDigits_eq,
        Nat.digits_def' (by norm_num : (1:Nat) < 10) (Nat.pos_of_ne_zero hr),
        Nat.mod_eq_of_lt h, Nat.div_eq_of_lt h]
      simp

theorem round10_eq (x : ℚ) : round10 x = round (x * 10) := by
  rw [round_eq, round10, Rat.floor_def', Rat.floor_def.symm, Rat.divInt_eq_div]
  congr 1
  have hden : ((x.den : ℚ)) ≠ 0 := by exact_mod_cast x.den_nz
  have h2 : (x.num : ℚ) / (x.den : ℚ) * (x.den : ℚ) = (x.num : ℚ) :=
    div_mul_cancel₀ _ hden
  rw [Rat.num_div_den x] at h2
  have hden2 : (((2 * (x.den : ℤ) : ℤ)) : ℚ) ≠ 0 := by
    push_cast
    simp [hden]
  rw [div_eq_iff hden2]
  push_cast
  linear_combination -20 * h2

theorem parseFixed_format (q r : Nat) (hr : r < 10) (sign : Prop) [Decidable sign] (pad : Nat) :
    parseFixed (leftPad pad ((if sign then "-" else "")
        ++ natDec q ++ "." ++ natDec r)) =
      if sign then -((q : ℚ) + (r : ℚ) / 10) else (q : ℚ) + (r : ℚ) / 10 := by
  obtain ⟨c, cs0, hdata, hdig⟩ := natDec_head q
  obtain ⟨hcsp, hcmn⟩ := isDigit_ne_space_minus c hdig
  have hdot : headNonDigit ('.' :: (natDec r).data) := by
    show ('.' : Char).isDigit = false
    decide
  have hsd : ((if sign then "-" else "") ++ natDec q ++ "." ++ natDec r).data
      = (if sign then ['-'] else []) ++ ((natDec q).data ++ '.' :: (natDec r).data) := by
    by_cases hs : sign <;>
      simp [hs, String.data_append, List.append_assoc]
  have hlp : ∀ s : String, (leftPad pad s).data
      = List.replicate (pad - s.length) ' ' ++ s.data := by
    intro s
    simp [leftPad, String.data_append]
  have h4 : parseFrac ('.' :: (natDec r).data)
      = ((digitsVal (natDec r).data 0).1 : ℚ)
        / 10 ^ ((natDec r).data.length - (digitsVal (natDec r).data 0).2.length) := rfl
  have h3 := digitsVal_natDec q ('.' :: (natDec r).data) hdot
  rw [parseFixed, hlp, skipSpaces_replicate, hsd]
  by_cases hs : sign
  · simp only [hs, if_true, List.singleton_append, List.nil_append]
    rw [skipSpaces_nonspace '-' _ (by decide)]
    rw [show parseSign ('-' :: ((natDec q).data ++ '.' :: (natDec r).data))
        = (true, (natDec q).data ++ '.' :: (natDec r).data) from rfl]
    dsimp only
    rw [h3]
    dsimp only
    rw [h4, (natDec_single r hr).1, (natDec_single r hr).2]
    norm_num
  · simp only [hs, if_false, List.nil_append]
    rw [hdata, List.cons_append]
    rw [skipSpaces_nonspace c _ hcsp, parseSign_cons_ne c _ hcmn]
    dsimp only
    rw [← List.cons_append, ← hdata, h3]
    dsimp only
    rw [h4, (natDec_single r hr).1, (natDec_single r hr).2]
    norm_num

theorem parse_dtostrf1 (t : ℚ) :
    parseFixed (dtostrf1 t 6) = ((round (t * 10) : ℤ) : ℚ) / 10 := by
  rw [← round10_eq]
  have hfmt : formatFixed1 t
      = (if round10 t < 0 then "-" else "")
        ++ natDec ((round10 t).natAbs / 10) ++ "." ++ natDec ((round10 t).natAbs % 10) := rfl
  have hr : (round10 t).natAbs % 10 < 10 := Nat.mod_lt _ (by norm_num)
  have := parseFixed_format ((round10 t).natAbs / 10) ((round10 t).natAbs % 10) hr
    (round10 t < 0) 6
  rw [dtostrf1, hfmt, this]
  set n := round10 t with hn
  set m := n.natAbs with hm
  have hsplit : ((m / 10 : ℕ) : ℚ) * 10 + ((m % 10 : ℕ) : ℚ) = (m : ℚ) := by
    exact_mod_cast (by omega : (m / 10) * 10 + m % 10 = m)
  by_cases hneg : n < 0
  · simp only [hneg, if_true]
    have hn0 : ((n : ℤ) : ℚ) < 0 := by exact_mod_cast hneg
    have habs : ((m : ℕ) : ℚ) = -((n : ℤ) : ℚ) := by
      rw [hm, Int.cast_natAbs, Int.cast_abs]
      exact abs_of_neg hn0
    rw [eq_div_iff (by norm_num : (10:ℚ) ≠ 0)]
    linear_combination -hsplit - habs
  · simp only [hneg, if_false]
    have hn0 : (0:ℚ) ≤ ((n : ℤ) : ℚ) := by exact_mod_cast (not_lt.mp hneg)
    have habs : ((m : ℕ) : ℚ) = ((n : ℤ) : ℚ) := by
      rw [hm, Int.cast_natAbs, Int.cast_abs]
      exact abs_of_nonneg hn0
    rw [eq_div_iff (by norm_num : (10:ℚ) ≠ 0)]
    linear_combination hsplit + habs

theorem u32_idem (n : Nat) : u32 (u32 n) = u32 n := by
  unfold u32 U32
  omega

theorem wsub_elapsed (t1 t2 : Nat) (h1 : t1 ≤ t2) (h2 : t2 - t1 < U32) :
    wsub (u32 t2) (u32 t1) = t2 - t1 := by
  unfold wsub u32 U32 at *
  omega

/-- C10: both timer checks (`currentTime - lastSampleTime >= SAMPLE_INTERVAL`
in `loop` and `currentTime - lastReconnectAttempt > MQTT_RECONNECT_INTERVAL`
in `handleMQTTConnection`) are computed with unsigned 32-bit wraparound
subtraction, so for any two clock readings less than 2^32 ms apart the
machine comparison agrees with the mathematical elapsed time, even across a
millis() overflow. -/
theorem timer_checks_wraparound_correct (t1 t2 : Nat) (h1 : t1 ≤ t2)
    (h2 : t2 - t1 < U32) :
    (sampleDue (u32 t2) (u32 t1) = true ↔ SAMPLE_INTERVAL ≤ t2 - t1) ∧
    (reconnectDue (u32 t2) (u32 t1) = true ↔ MQTT_RECONNECT_INTERVAL < t2 - t1) := by
  have h := wsub_elapsed t1 t2 h1 h2
  constructor
  · simp [sampleDue, h]
  · simp [reconnectDue, h]

/-- Witness for C10 at a pair of readings straddling the 2^32 overflow. -/
theorem timer_checks_wraparound_correct_witness :
    (U32 - 1000 ≤ U32 + 11000 ∧ (U32 + 11000) - (U32 - 1000) < U32) ∧
    ((sampleDue (u32 (U32 + 11000)) (u32 (U32 - 1000)) = true ↔
        SAMPLE_INTERVAL ≤ (U32 + 11000) - (U32 - 1000)) ∧
     (reconnectDue (u32 (U32 + 11000)) (u32 (U32 - 1000)) = true ↔
        MQTT_RECONNECT_INTERVAL < (U32 + 11000) - (U32 - 1000))) :=
  ⟨⟨by decide, by decide⟩,
    timer_checks_wraparound_correct (U32 - 1000) (U32 + 11000) (by decide) (by decide)⟩

/-- C5: with the retry budget `trying = 10`, eleven consecutive failed
status polls make `connectToWiFi` reach `ESP.restart()` after exactly 11
polls, and the wait loop never polls more than `trying + 1` times (no
unbounded spin; nothing runs after the restart since the function ends
there). -/
theorem wifi_restart_after_bounded_failures (status : Nat → Bool)
    (h : ∀ k, k ≤ 10 → status k = false) :
    connectToWiFi status = (WifiResult.restart, 11) ∧
    ∀ t i, (wifiWait status t i).2 ≤ t + 1 := by
  constructor
  · have h0 := h 0 (by norm_num)
    have h1 := h 1 (by norm_num)
    have h2 := h 2 (by norm_num)
    have h3 := h 3 (by norm_num)
    have h4 := h 4 (by norm_num)
    have h5 := h 5 (by norm_num)
    have h6 := h 6 (by norm_num)
    have h7 := h 7 (by norm_num)
    have h8 := h 8 (by norm_num)
    have h9 := h 9 (by norm_num)
    have h10 := h 10 (by norm_num)
    simp [connectToWiFi, wifiWait, h0, h1, h2, h3, h4, h5, h6, h7, h8, h9, h10]
  · intro t
    induction t with
    | zero =>
      intro i
      cases hs : status i <;> simp [wifiWait, hs]
    | succ t ih =>
      intro i
      cases hs : status i
      · have := ih (i + 1)
        simp only [wifiWait, hs]
        norm_num
        omega
      · simp [wifiWait, hs]

/-- Witness for C5: the all-failures status stream. -/
theorem wifi_restart_after_bounded_failures_witness :
    (∀ k, k ≤ 10 → (fun _ => false : Nat → Bool) k = false) ∧
    (connectToWiFi (fun _ => false) = (WifiResult.restart, 11) ∧
     ∀ t i, (wifiWait (fun _ => false) t i).2 ≤ t + 1) :=
  ⟨fun _ _ => rfl, wifi_restart_after_bounded_failures (fun _ => false) (fun _ _ => rfl)⟩

/-- C9: `connectToWiFi` never returns `false` — whenever the wait loop
returns, the returned boolean is `true` and the status poll it exited on was
connected (link Up); consequently `setup`'s "MQTT will be disabled" branch
is unreachable. -/
theorem connectToWiFi_never_returns_false (status : Nat → Bool) (mqttOk : Bool) :
    (∀ t i b k, (wifiWait status t i).1 = WifiResult.ret b k →
      b = true ∧ status k = true) ∧
    (∀ res, setupConn status mqttOk = some res → res.1 = false) := by
  have key : ∀ (t i : Nat) (b : Bool) (k : Nat),
      (wifiWait status t i).1 = WifiResult.ret b k → b = true ∧ status k = true := by
    intro t
    induction t with
    | zero =>
      intro i b k hret
      cases hs : status i
      · simp [wifiWait, hs] at hret
      · simp [wifiWait, hs] at hret
        exact ⟨hret.1, hret.2 ▸ hs⟩
    | succ t ih =>
      intro i b k hret
      cases hs : status i
      · simp only [wifiWait, hs] at hret
        norm_num at hret
        exact ih (i + 1) b k hret
      · simp [wifiWait, hs] at hret
        exact ⟨hret.1, hret.2 ▸ hs⟩
  refine ⟨key, ?_⟩
  intro res hres
  unfold setupConn at hres
  rcases hw : (connectToWiFi status).1 with _ | ⟨b, k⟩
  · rw [hw] at hres
    exact absurd hres (by simp)
  · rw [hw] at hres
    have hb := (key 10 0 b k hw).1
    subst hb
    simp at hres
    rw [← hres]

/-- Witness for C9 with an immediately-connected status stream. -/
theorem connectToWiFi_never_returns_false_witness :
    ((wifiWait (fun _ => true) 10 0).1 = WifiResult.ret true 0) ∧
    (true = true ∧ (fun _ => true : Nat → Bool) 0 = true) :=
  ⟨rfl, (connectToWiFi_never_returns_false (fun _ => true) true).1 10 0 true 0 rfl⟩

/-- C3 counterexample: in Scenario C (interval 10000, `lastSampleTime`
initially 0, polls at t = 0, 4000, 11000) the code produces a request only
at t = 11000 — at t = 0 the check `0 - 0 >= 10000` is false, so no request
is produced at t = 0, contrary to the claim. -/
theorem scheduler_scenario_no_request_at_zero :
    schedulerScenario [0, 4000, 11000] 0 = [11000] ∧
    (0 : Nat) ∉ schedulerScenario [0, 4000, 11000] 0 ∧
    (pollSample 0 0).1 = none := by
  refine ⟨by decide, ?_, by decide⟩
  decide

/-- C3 amended: the scheduler fires exactly when the wraparound elapsed time
`now - last_sample` is at least the interval, on firing sets
`last_sample = now` (so a poll within one interval of a produced sample
produces nothing — one sample on resume after a stall, no backlog), and in
Scenario C requests are produced only at t = 11000, not at t = 0. -/
theorem scheduler_fires_iff_interval_elapsed (now last t2 : Nat) :
    ((pollSample now last).1 = some now ↔ SAMPLE_INTERVAL ≤ wsub now last) ∧
    ((pollSample now last).1 = none → (pollSample now last).2 = last) ∧
    ((pollSample now last).1 = some now → (pollSample now last).2 = now) ∧
    (sampleDue now last = true → wsub t2 now < SAMPLE_INTERVAL →
      (pollSample t2 (pollSample now last).2).1 = none) ∧
    schedulerScenario [0, 4000, 11000] 0 = [11000] := by
  refine ⟨?_, ?_, ?_, ?_, by decide⟩
  · by_cases hd : sampleDue now last = true
    · have := of_decide_eq_true (sampleDue.eq_def now last ▸ hd)
      simp [pollSample, hd, this]
    · have := of_decide_eq_false (sampleDue.eq_def now last ▸ (Bool.not_eq_true _ ▸ hd : sampleDue now last = false))
      simp [pollSample, hd, this]
  · intro h
    by_cases hd : sampleDue now last = true <;> simp [pollSample, hd] at h ⊢
  · intro h
    by_cases hd : sampleDue now last = true <;> simp [pollSample, hd] at h ⊢
  · intro hd h2
    have hdue2 : sampleDue t2 now = false := by
      simp [sampleDue]
      omega
    simp [pollSample, hd, hdue2]

/-- Witness for C3's amended theorem: a sample fires at t = 20000 from
`last = 0`, and a poll at t = 25000 right after it produces nothing. -/
theorem scheduler_fires_iff_interval_elapsed_witness :
    sampleDue 20000 0 = true ∧ wsub 25000 20000 < SAMPLE_INTERVAL ∧
    (pollSample 25000 (pollSample 20000 0).2).1 = none :=
  ⟨by decide, by decide,
    (scheduler_fires_iff_interval_elapsed 20000 0 25000).2.2.2.1 (by decide) (by decide)⟩

/-- C7 counterexample: `publishTemperatureData` uses
`dtostrf(currentTemp, 6, 1, payload)`, which right-justifies to a minimum
width of 6, so the reading 23.47 is carried as the string "  23.5" (with
two leading spaces), not as the string "23.5" the claim names. -/
theorem temperature_payload_not_bare_string :
    Event.publish MQTT_TOPIC_TEMPERATURE "  23.5"
        ∈ publishTemperatureData (Rat.divInt 2347 100) ∧
    ∀ p, Event.publish MQTT_TOPIC_TEMPERATURE p
        ∈ publishTemperatureData (Rat.divInt 2347 100) → p ≠ "23.5" := by
  refine ⟨by decide, ?_⟩
  intro p hp
  have hlist : publishTemperatureData (Rat.divInt 2347 100)
      = [Event.publish MQTT_TOPIC_TEMPERATURE "  23.5",
         Event.serialLog ("Published to MQTT: " ++ "  23.5" ++ " C")] := by decide
  rw [hlist] at hp
  rcases List.mem_cons.mp hp with h | h
  · injection h with h1 h2
    subst h2
    decide
  · rcases List.mem_cons.mp h with h2 | h2
    · exact absurd h2 (by simp)
    · simp at h2

/-- C7 amended: every published payload is the reading rounded to one
fractional digit and right-justified with spaces to a minimum field width
of 6 (so 23.47 is carried as "  23.5", not "23.5"); re-parsing the payload
(skipping the padding) recovers the one-decimal rounding, and for 23.47
that value is 23.5. -/
theorem temperature_payload_one_decimal_roundtrip (t : ℚ) :
    publishTemperatureData t =
      [Event.publish MQTT_TOPIC_TEMPERATURE (dtostrf1 t 6),
       Event.serialLog ("Published to MQTT: " ++ dtostrf1 t 6 ++ " C")] ∧
    parseFixed (dtostrf1 t 6) = ((round (t * 10) : ℤ) : ℚ) / 10 ∧
    dtostrf1 (Rat.divInt 2347 100) 6 = "  23.5" ∧
    parseFixed (dtostrf1 (Rat.divInt 2347 100) 6) = 47 / 2 := by
  refine ⟨rfl, parse_dtostrf1 t, by decide, ?_⟩
  have h235 : round10 (Rat.divInt 2347 100) = 235 := by decide
  calc parseFixed (dtostrf1 (Rat.divInt 2347 100) 6)
      = ((round ((Rat.divInt 2347 100) * 10) : ℤ) : ℚ) / 10 :=
        parse_dtostrf1 (Rat.divInt 2347 100)
    _ = ((round10 (Rat.divInt 2347 100) : ℤ) : ℚ) / 10 := by rw [round10_eq]
    _ = (47 : ℚ) / 2 := by
        rw [h235]
        norm_num

theorem handle_no_temp_publish (env : Env) (s : MState) (p : String) :
    Event.publish MQTT_TOPIC_TEMPERATURE p ∉ (handleMQTTConnection env s).2 := by
  have htop : ¬ (MQTT_TOPIC_TEMPERATURE = MQTT_TOPIC_STATUS) := by decide
  rw [handleMQTTConnection]
  cases hw : env.wifiStatus
  · simp only [hw]
    norm_num
    cases hres : (connectToWiFi env.wifiRetryStatus).1
    · simp
    · cases hok : env.mqttConnectOk <;>
        simp [connectToMQTT, hok, Event.publish.injEq, htop]
  · simp only [hw]
    norm_num
    cases hc : env.clientConnected
    · simp only [hc]
      norm_num
      by_cases hd : reconnectDue (u32 env.connNow) s.lastReconnectAttempt = true
      · cases hok : env.mqttConnectOk <;>
          simp [hd, connectToMQTT, hok, Event.publish.injEq, htop]
      · simp [Bool.not_eq_true _ ▸ hd]
    · simp [hc]

/-- C1 counterexample: with the session up and a sample due, a sensor read
returning the DEVICE_DISCONNECTED sentinel (-127, a SensorError sample) is
published on the temperature topic as "-127.0" — the code has no validity
check, so the claim's "never published" is false. -/
theorem sensor_error_sentinel_is_published :
    Event.publish MQTT_TOPIC_TEMPERATURE "-127.0" ∈ (loopIter envSensorFail stUp).2 ∧
    envSensorFail.temp = DEVICE_DISCONNECTED_C ∧ stUp.mqttConnected = true := by
  refine ⟨by decide, by decide, by decide⟩

theorem loopIter_none (env : Env) (s : MState) (ev : List Event)
    (hh : handleMQTTConnection env s = (none, ev)) :
    loopIter env s = (none, ev) := by
  rw [loopIter, hh]

theorem loopIter_some (env : Env) (s : MState) (s1 : MState) (ev : List Event)
    (hh : handleMQTTConnection env s = (some s1, ev)) :
    loopIter env s =
      if sampleDue (u32 env.now) s1.lastSampleTime then
        (some { s1 with lastSampleTime := u32 env.now },
         ev ++ [Event.serialLog "Current temperature"]
            ++ (if s1.mqttConnected then publishTemperatureData env.temp else []))
      else (some s1, ev) := by
  rw [loopIter, hh]
  by_cases hd : sampleDue (u32 env.now) s1.lastSampleTime = true
  · simp only [pollSample, hd, if_true]
  · have hd2 : sampleDue (u32 env.now) s1.lastSampleTime = false :=
      Bool.not_eq_true _ ▸ hd
    simp only [pollSample, hd2, Bool.false_eq_true, if_false]

theorem loopIter_state_temp_irrel (env : Env) (s : MState) (t : ℚ) :
    (loopIter { env with temp := t } s).1 = (loopIter env s).1 := by
  have hh : handleMQTTConnection { env with temp := t } s = handleMQTTConnection env s := rfl
  cases hh2 : handleMQTTConnection env s with
  | mk os ev =>
    cases os with
    | none =>
      rw [loopIter_none env s ev hh2, loopIter_none { env with temp := t } s ev (hh.trans hh2)]
    | some s1 =>
      rw [loopIter_some env s s1 ev hh2, loopIter_some { env with temp := t } s s1 ev (hh.trans hh2)]
      by_cases hd : sampleDue (u32 env.now) s1.lastSampleTime = true
      · simp only [show u32 (Env.now { env with temp := t }) = u32 env.now from rfl, hd, if_true]
      · have hd2 : sampleDue (u32 env.now) s1.lastSampleTime = false :=
          Bool.not_eq_true _ ▸ hd
        simp only [show u32 (Env.now { env with temp := t }) = u32 env.now from rfl, hd2,
          Bool.false_eq_true, if_false]

/-- C1 amended: in every loop iteration the temperature publish is
attempted if and only if the tick survived connection maintenance, the
sampling timer fired, and the `mqttConnected` flag is set — the sample's
validity is never consulted (the DEVICE_DISCONNECTED sentinel is published
as-is), and a sample taken while the session is down is dropped without
buffering (the resulting state does not depend on the reading). -/
theorem publish_gated_by_session_only (env : Env) (s : MState) :
    ((∃ p, Event.publish MQTT_TOPIC_TEMPERATURE p ∈ (loopIter env s).2) ↔
      (∃ s1, (handleMQTTConnection env s).1 = some s1 ∧
        sampleDue (u32 env.now) s1.lastSampleTime = true ∧ s1.mqttConnected = true)) ∧
    (loopIter { env with temp := 0 } s).1 = (loopIter env s).1 := by
  refine ⟨?_, loopIter_state_temp_irrel env s 0⟩
  cases hh : handleMQTTConnection env s with
  | mk os ev =>
    have hnp : ∀ p, Event.publish MQTT_TOPIC_TEMPERATURE p ∉ ev := by
      intro p
      have := handle_no_temp_publish env s p
      rw [hh] at this
      exact this
    cases os with
    | none =>
      rw [loopIter_none env s ev hh]
      constructor
      · rintro ⟨p, hp⟩
        exact absurd hp (hnp p)
      · rintro ⟨s1, hs1, -, -⟩
        exact Option.noConfusion hs1
    | some s1 =>
      rw [loopIter_some env s s1 ev hh]
      by_cases hd : sampleDue (u32 env.now) s1.lastSampleTime = true
      · simp only [hd, if_true]
        cases hm : s1.mqttConnected
        · simp only [hm, Bool.false_eq_true, if_false]
          constructor
          · rintro ⟨p, hp⟩
            rcases List.mem_append.mp hp with h | h
            · rcases List.mem_append.mp h with h2 | h2
              · exact absurd h2 (hnp p)
              · rcases List.mem_cons.mp h2 with h3 | h3
                · exact Event.noConfusion h3
                · exact absurd h3 (List.not_mem_nil _)
            · exact absurd h (List.not_mem_nil _)
          · rintro ⟨s2, hs2, -, hmq⟩
            have he : s1 = s2 := Option.some.inj hs2
            subst he
            rw [hm] at hmq
            exact Bool.noConfusion hmq
        · simp only [hm, if_true]
          constructor
          · intro _
            exact ⟨s1, rfl, hd, hm⟩
          · intro _
            refine ⟨dtostrf1 env.temp 6, List.mem_append.mpr (Or.inr ?_)⟩
            exact List.mem_cons_self _ _
      · have hd2 : sampleDue (u32 env.now) s1.lastSampleTime = false :=
          Bool.not_eq_true _ ▸ hd
        simp only [hd2, Bool.false_eq_true, if_false]
        constructor
        · rintro ⟨p, hp⟩
          exact absurd hp (hnp p)
        · rintro ⟨s2, hs2, hdue, -⟩
          have he : s1 = s2 := Option.some.inj hs2
          subst he
          rw [hd2] at hdue
          exact Bool.noConfusion hdue

/-- C2 counterexample: a maintenance tick entered with the link down and
the session previously up does NOT stop after forcing the session down — in
the same tick it blocks in a WiFi reconnect and, on success, attempts the
MQTT handshake and publishes "online", contradicting "no session handshake
is attempted and no publish occurs in that tick". -/
theorem link_down_tick_still_handshakes :
    envLinkFlap.wifiStatus = false ∧ stUp.mqttConnected = true ∧
    Event.mqttAttempt ∈ (handleMQTTConnection envLinkFlap stUp).2 ∧
    Event.publish MQTT_TOPIC_STATUS "online" ∈ (handleMQTTConnection envLinkFlap stUp).2 :=
  ⟨rfl, rfl, by decide, by decide⟩

/-- C2 amended: on a maintenance tick with the link not Up, both connection
flags are forced down, and then in that same tick a blocking WiFi reconnect
runs: if it exhausts its budget the tick ends in ESP.restart() with no MQTT
handshake; if it succeeds, an MQTT handshake is attempted immediately in the
same tick, bypassing the reconnect timer (which is left untouched). -/
theorem link_down_forces_down_then_reconnects (env : Env) (s : MState) (h : env.wifiStatus = false) :
    ((connectToWiFi env.wifiRetryStatus).1 = WifiResult.restart →
      (handleMQTTConnection env s).1 = none ∧
      Event.restart ∈ (handleMQTTConnection env s).2 ∧
      Event.mqttAttempt ∉ (handleMQTTConnection env s).2) ∧
    (∀ b k, (connectToWiFi env.wifiRetryStatus).1 = WifiResult.ret b k →
      Event.mqttAttempt ∈ (handleMQTTConnection env s).2 ∧
      ∃ s1, (handleMQTTConnection env s).1 = some s1 ∧
        s1.mqttConnected = env.mqttConnectOk ∧
        s1.wifiConnected = false ∧
        s1.lastReconnectAttempt = s.lastReconnectAttempt) := by
  rw [handleMQTTConnection, h, if_pos rfl]
  dsimp only
  constructor
  · intro hres
    rw [hres]
    simp
  · intro b k hres
    rw [hres]
    cases hok : env.mqttConnectOk <;>
      simp [connectToMQTT, hok]

/-- Witness for C2's amended theorem on a concrete link-flap tick. -/
theorem link_down_forces_down_then_reconnects_witness :
    envLinkFlap.wifiStatus = false ∧
    (connectToWiFi envLinkFlap.wifiRetryStatus).1 = WifiResult.ret true 0 ∧
    (Event.mqttAttempt ∈ (handleMQTTConnection envLinkFlap stUp).2 ∧
      ∃ s1, (handleMQTTConnection envLinkFlap stUp).1 = some s1 ∧
        s1.mqttConnected = envLinkFlap.mqttConnectOk ∧
        s1.wifiConnected = false ∧
        s1.lastReconnectAttempt = stUp.lastReconnectAttempt) :=
  ⟨rfl, by decide, (link_down_forces_down_then_reconnects envLinkFlap stUp rfl).2 true 0 (by decide)⟩

/-- C6: for a handshake attempt made with the link Up, the session out of
Up, and the reconnect interval elapsed: on success the session flag is set,
the literal "online" is published exactly once on the status channel, and
the timer records the attempt instant; on failure the session flag is
cleared and last_attempt is likewise recorded as the current time. -/
theorem handshake_attempt_outcome (env : Env) (s : MState)
    (hw : env.wifiStatus = true) (hc : env.clientConnected = false)
    (hd : reconnectDue (u32 env.connNow) s.lastReconnectAttempt = true) :
    ∃ s1, (handleMQTTConnection env s).1 = some s1 ∧
      s1.lastReconnectAttempt = u32 env.connNow ∧
      Event.mqttAttempt ∈ (handleMQTTConnection env s).2 ∧
      (env.mqttConnectOk = true →
        s1.mqttConnected = true ∧
        ((handleMQTTConnection env s).2.count (Event.publish MQTT_TOPIC_STATUS "online")) = 1) ∧
      (env.mqttConnectOk = false →
        s1.mqttConnected = false ∧
        ((handleMQTTConnection env s).2.count (Event.publish MQTT_TOPIC_STATUS "online")) = 0) := by
  rw [handleMQTTConnection, hw, if_neg (by decide), hc, if_pos rfl]
  dsimp only
  rw [show reconnectDue (u32 env.connNow)
      (MState.lastReconnectAttempt { s with mqttConnected := false }) = true from hd,
    if_pos rfl]
  dsimp only
  cases hok : env.mqttConnectOk <;>
    simp [connectToMQTT, hok, List.count_cons]

/-- Witness for C6 at a concrete successful handshake tick. -/
theorem handshake_attempt_outcome_witness :
    envHandshake.wifiStatus = true ∧ envHandshake.clientConnected = false ∧
    reconnectDue (u32 envHandshake.connNow) initState.lastReconnectAttempt = true ∧
    ∃ s1, (handleMQTTConnection envHandshake initState).1 = some s1 ∧
      s1.lastReconnectAttempt = u32 envHandshake.connNow ∧
      Event.mqttAttempt ∈ (handleMQTTConnection envHandshake initState).2 ∧
      (envHandshake.mqttConnectOk = true →
        s1.mqttConnected = true ∧
        ((handleMQTTConnection envHandshake initState).2.count
          (Event.publish MQTT_TOPIC_STATUS "online")) = 1) ∧
      (envHandshake.mqttConnectOk = false →
        s1.mqttConnected = false ∧
        ((handleMQTTConnection envHandshake initState).2.count
          (Event.publish MQTT_TOPIC_STATUS "online")) = 0) :=
  ⟨rfl, rfl, by decide, handshake_attempt_outcome envHandshake initState rfl rfl (by decide)⟩

/-- C8: the incoming-message pump (`mqttClient.loop()`) runs in a
maintenance tick exactly when the link is up and the MQTT client is
connected (session Up), a pump tick does nothing else, and the registered
observer `mqttCallback` only logs the received topic and payload — it
publishes nothing and acts on no topic. -/
theorem pump_iff_link_and_session_up (env : Env) (s : MState) (topic : String) (payload : List Char) :
    (Event.pump ∈ (handleMQTTConnection env s).2 ↔
      env.wifiStatus = true ∧ env.clientConnected = true) ∧
    (env.wifiStatus = true → env.clientConnected = true →
      handleMQTTConnection env s = (some s, [Event.pump])) ∧
    (∀ e ∈ mqttCallback topic payload, ∃ m, e = Event.serialLog m) := by
  refine ⟨?_, ?_, ?_⟩
  · rw [handleMQTTConnection]
    cases hw : env.wifiStatus
    · rw [if_pos rfl]
      dsimp only
      cases hres : (connectToWiFi env.wifiRetryStatus).1
      · simp
      · cases hok : env.mqttConnectOk <;> simp [connectToMQTT, hok]
    · rw [if_neg (by decide)]
      dsimp only
      cases hc : env.clientConnected
      · rw [if_pos rfl]
        by_cases hd : reconnectDue (u32 env.connNow) s.lastReconnectAttempt = true
        · rw [hd, if_pos rfl]
          cases hok : env.mqttConnectOk <;> simp [connectToMQTT, hok]
        · have hd2 : reconnectDue (u32 env.connNow) s.lastReconnectAttempt = false :=
            Bool.not_eq_true _ ▸ hd
          rw [hd2, if_neg (by decide)]
          simp
      · rw [if_neg (by decide)]
        simp
  · intro hw hc
    rw [handleMQTTConnection, hw, if_neg (by decide), hc, if_neg (by decide)]
  · intro e he
    rcases List.mem_cons.mp he with h | h
    · exact ⟨_, h⟩
    · exact absurd h (List.not_mem_nil _)

/-- Witness for C8 on a concrete pump tick. -/
theorem pump_iff_link_and_session_up_witness :
    envPump.wifiStatus = true ∧ envPump.clientConnected = true ∧
    handleMQTTConnection envPump stUp = (some stUp, [Event.pump]) :=
  ⟨rfl, rfl, (pump_iff_link_and_session_up envPump stUp "" []).2.1 rfl rfl⟩

/-- C4 counterexample: two consecutive MQTT connect attempts only 10 ms
apart (t = 6000 from the WiFi-down path, which bypasses the rate limiter,
then t = 6010 from the rate-limited path), far below the 5000 ms reconnect
interval; the WiFi link has no reconnect spacing at all. -/
theorem mqtt_attempts_closer_than_interval :
    attemptTimes (runConn initState [envWifiDrop, envMqttRetry]) = [6000, 6010] ∧
    6010 - 6000 < MQTT_RECONNECT_INTERVAL := by
  constructor
  · decide
  · decide


theorem wsub_u32_right (a b : Nat) : wsub a (u32 b) = wsub a b := by
  simp [wsub, u32_idem]

theorem attemptTimes_cons (t : Nat) (ev : List Event) (tr : List (Nat × List Event)) :
    attemptTimes ((t, ev) :: tr) =
      if Event.mqttAttempt ∈ ev then t :: attemptTimes tr else attemptTimes tr := by
  by_cases h : Event.mqttAttempt ∈ ev <;> simp [attemptTimes, List.filter_cons, h]

theorem mqttAttempt_mem_connect (ok : Bool) (s : MState) :
    Event.mqttAttempt ∈ (connectToMQTT ok s).2.2 := by
  cases ok <;> simp [connectToMQTT]

theorem connect_preserves_last (ok : Bool) (s : MState) :
    (connectToMQTT ok s).1.lastReconnectAttempt = s.lastReconnectAttempt := by
  cases ok <;> rfl

/-- C4 amended: while the link stays Up, consecutive MQTT session
reconnection attempts are always separated by more than
MQTT_RECONNECT_INTERVAL in wraparound time (seeded by the stored
last_attempt); but attempts launched from the WiFi-down reconnect path do
not consult or update the timer, so attempts across a link flap can be
arbitrarily close, and WiFi link attempts themselves have no spacing. -/
theorem rate_limited_attempts_spacing (envs : List Env) : ∀ (s : MState), (∀ e ∈ envs, e.wifiStatus = true) →
    List.Chain' (fun a b => MQTT_RECONNECT_INTERVAL < wsub b a)
      (u32 s.lastReconnectAttempt :: attemptTimes (runConn s envs)) := by
  induction envs with
  | nil =>
    intro s h
    simp [runConn, attemptTimes]
  | cons e es ih =>
    intro s h
    have he : e.wifiStatus = true := h e (List.mem_cons_self e es)
    have hrest : ∀ e2 ∈ es, e2.wifiStatus = true :=
      fun e2 h2 => h e2 (List.mem_cons_of_mem e h2)
    cases hc : e.clientConnected
    · by_cases hd : reconnectDue (u32 e.connNow) s.lastReconnectAttempt = true
      · have hh : handleMQTTConnection e s =
            (some (connectToMQTT e.mqttConnectOk
              { s with mqttConnected := false, lastReconnectAttempt := u32 e.connNow }).1,
             (connectToMQTT e.mqttConnectOk
              { s with mqttConnected := false, lastReconnectAttempt := u32 e.connNow }).2.2) := by
          rw [handleMQTTConnection, he, if_neg (by decide), hc, if_pos rfl]
          dsimp only
          rw [hd, if_pos rfl]
        rw [runConn, hh]
        dsimp only
        rw [attemptTimes_cons, if_pos (mqttAttempt_mem_connect _ _)]
        refine List.chain'_cons.mpr ⟨?_, ?_⟩
        · rw [wsub_u32_right]
          rw [reconnectDue] at hd
          exact of_decide_eq_true hd
        · have h3 := ih (connectToMQTT e.mqttConnectOk
              { s with mqttConnected := false, lastReconnectAttempt := u32 e.connNow }).1 hrest
          rw [show (connectToMQTT e.mqttConnectOk
              { s with mqttConnected := false, lastReconnectAttempt := u32 e.connNow
                }).1.lastReconnectAttempt = u32 e.connNow from by
              rw [connect_preserves_last], u32_idem] at h3
          exact h3
      · have hd2 : reconnectDue (u32 e.connNow) s.lastReconnectAttempt = false :=
          Bool.not_eq_true _ ▸ hd
        have hh : handleMQTTConnection e s =
            (some { s with mqttConnected := false }, []) := by
          rw [handleMQTTConnection, he, if_neg (by decide), hc, if_pos rfl]
          dsimp only
          rw [hd2, if_neg (by decide)]
        rw [runConn, hh]
        dsimp only
        rw [attemptTimes_cons, if_neg (List.not_mem_nil _)]
        exact ih { s with mqttConnected := false } hrest
    · have hh : handleMQTTConnection e s = (some s, [Event.pump]) := by
        rw [handleMQTTConnection, he, if_neg (by decide), hc, if_neg (by decide)]
      rw [runConn, hh]
      dsimp only
      rw [attemptTimes_cons, if_neg (by decide)]
      exact ih s hrest

/-- Witness for C4's amended theorem on a concrete link-up trace. -/
theorem rate_limited_attempts_spacing_witness :
    (∀ e ∈ [envMqttRetry], e.wifiStatus = true) ∧
    List.Chain' (fun a b => MQTT_RECONNECT_INTERVAL < wsub b a)
      (u32 initState.lastReconnectAttempt :: attemptTimes (runConn initState [envMqttRetry])) :=
  ⟨fun e h2 => by
      rw [List.mem_singleton] at h2
      subst h2
      rfl,
   rate_limited_attempts_spacing [envMqttRetry] initState (fun e h2 => by
      rw [List.mem_singleton] at h2
      subst h2
      rfl)⟩

end Temperature
